import Mathlib

/-!
Verification of the EventGhost GoogleChrome plugin
(src/eventghost/plugins/GoogleChrome/init file).

The plugin bridges EventGhost to a Chrome extension over a local
WebSocket. We embed the protocol and lifecycle logic shallowly:

* Python JSON values become the inductive type Json (this plugin never
  builds or reads JSON arrays or floats, so objects, strings, integers,
  booleans and null suffice).
* Python dict subscripting d[k] becomes jsonGet, returning Except so an
  uncaught KeyError or TypeError is an explicit error value.
* eg.PluginBase.TriggerEvent calls become Notification values collected
  in order; an escaping Python exception is the Option PyError component
  of a result.
* The Server class becomes an explicit state record; its methods become
  state-transition functions.
-/

/-- A Python value as produced by json.loads or fed to json.dumps in this
plugin: null, booleans, integers, strings and string-keyed objects. The
plugin never uses arrays or non-integer numbers. Objects are ordered
association lists with the keys distinct, as json.loads and Python dict
literals produce them. -/
inductive Json : Type where
  | null : Json
  | bool : Bool → Json
  | num : Int → Json
  | str : String → Json
  | obj : List (String × Json) → Json

/-- A Python exception escaping the plugin code uncaught. -/
inductive PyError : Type where
  | keyError : String → PyError
  | valueError : String → PyError
  | typeError : String → PyError
  | attributeError : String → PyError
deriving DecidableEq, Repr

/-- A payload handed to eg.PluginBase.TriggerEvent: absent (Python None
default), the raw inbound message string, or a decoded JSON value. -/
inductive Payload : Type where
  | noPayload : Payload
  | pyStr : String → Payload
  | pyVal : Json → Payload

/-- One TriggerEvent call: event suffix plus payload. -/
structure Notification : Type where
  suffix : String
  payload : Payload

/-- First binding of key k in an association list. The lists this plugin
builds and decodes have distinct keys, so this is Python dict lookup. -/
def lookupKey : List (String × Json) → String → Option Json
  | [], _ => none
  | (k, v) :: rest, key => if k = key then some v else lookupKey rest key

/-- Python subscripting y[k]: KeyError when the key is absent from a
dict, TypeError when the value is not a dict at all. -/
def jsonGet (y : Json) (k : String) : Except PyError Json :=
  match y with
  | Json.obj kvs =>
    match lookupKey kvs k with
    | some v => Except.ok v
    | none => Except.error (PyError.keyError k)
  | _ => Except.error (PyError.typeError "not subscriptable")

/-- The nested access y[.data][k] performed by the dispatcher. -/
def dataGet (y : Json) (k : String) : Except PyError Json :=
  match jsonGet y "data" with
  | Except.error e => Except.error e
  | Except.ok d => jsonGet d k

/-- Embeds IncomingMessageHandler.command_received, lines 574 to 609 of
the source. The method does, in order: print(message) (logging, not
modelled), y = json.loads(message), then an if/elif chain comparing
y[.command] with seven string tags, each branch calling
plugin.TriggerEvent once or twice. There is no try/except anywhere, so
any KeyError, TypeError or ValueError escapes the method uncaught.

The result of json.loads(message) is passed in as the loaded argument
(json.loads is the Python standard library, modelled at its interface:
ok with the decoded value, or error with ValueError when the text is not
valid JSON). The y[.command] access is hoisted out of the elif chain:
the source re-evaluates the same pure dict lookup in every condition,
raising on the first one when it raises at all, which is the same
behavior. A comparison of a non-string decoded value with a string tag
is False in Python, so every branch is skipped then.

In each branch the TriggerEvent arguments are evaluated left to right
before the call, so a failing nested field access in a payload position
stops the branch before that TriggerEvent fires, but after any earlier
TriggerEvent of the same branch has fired.

Returns the notifications raised in order, paired with the uncaught
Python exception escaping the method if any. -/
def command_received (message : String) (loaded : Except PyError Json) :
    List Notification × Option PyError :=
  match loaded with
  | Except.error e => ([], some e)
  | Except.ok y =>
    match jsonGet y "command" with
    | Except.error e => ([], some e)
    | Except.ok (Json.str tag) =>
      if tag = "QueryActiveTab" then
        match dataGet y "url" with
        | Except.error e =>
          ([⟨"QueryActiveTabInfo", Payload.pyStr message⟩], some e)
        | Except.ok u =>
          ([⟨"QueryActiveTabInfo", Payload.pyStr message⟩,
            ⟨"QueryActiveTab", Payload.pyVal u⟩], none)
      else if tag = "QueryTabByIndex" then
        match dataGet y "index" with
        | Except.error e => ([], some e)
        | Except.ok i =>
          ([⟨"QueryTabByIndex", Payload.pyVal i⟩,
            ⟨"QueryTabByIndexInfo", Payload.pyStr message⟩], none)
      else if tag = "ActiveTab" then
        match dataGet y "url" with
        | Except.error e => ([], some e)
        | Except.ok u =>
          ([⟨"ActiveTabUrl", Payload.pyVal u⟩,
            ⟨"ActiveTabInfo", Payload.pyStr message⟩], none)
      else if tag = "TabUpdated" then
        match dataGet y "url" with
        | Except.error e => ([], some e)
        | Except.ok u =>
          ([⟨"ActiveTabUrl", Payload.pyVal u⟩,
            ⟨"ActiveTabUrInfo", Payload.pyStr message⟩], none)
      else if tag = "CreateNewTab" then
        ([⟨"CreateNewTab", Payload.pyStr message⟩], none)
      else if tag = "MoveTab" then
        ([⟨"MoveTab", Payload.pyStr message⟩], none)
      else if tag = "RemoveTab" then
        ([⟨"RemoveTab", Payload.pyStr message⟩], none)
      else ([], none)
    | Except.ok _ => ([], none)

/-- An attached WebSocket client. The websocket handler library passes a
client dict with an id and a handler able to send; the plugin only ever
stores and forwards it, so an abstract identifier suffices. -/
structure Client : Type where
  id : Nat
deriving DecidableEq

/-- One write performed on the transport: the client whose handler
received send_message, and the text handed over. -/
structure Write : Type where
  client : Client
  message : String
deriving DecidableEq

/-- The state of the Server class (source lines 49 to 88). Fields
_thread and _connected_client are the instance attributes set in
Server.init, start, stop, new_client and client_left. The two boolean
fields embed the relevant state of the inherited socketserver base:
baseInited records whether WebsocketServer.init has run (it is called
only inside start, never in Server.init), and loopRunning records
whether serve_forever is executing on the background thread. -/
structure ServerState : Type where
  baseInited : Bool
  loopRunning : Bool
  _thread : Option Unit
  _connected_client : Option Client
deriving DecidableEq

/-- Server.init: no base-class construction, no thread, no client. -/
def Server_init : ServerState :=
  ⟨false, false, none, none⟩

/-- Server.start(host, port): runs WebsocketServer.init (which performs
the socketserver base construction and bind) and spawns a thread running
run_forever, which enters serve_forever. -/
def Server_start (s : ServerState) : ServerState :=
  { s with baseInited := true, loopRunning := true, _thread := some () }

/-- The inherited socketserver BaseServer.shutdown, as called by
Server.stop. Modelled from the Python standard library: it sets the
shutdown-request flag and then waits on the is-shut-down event until the
serve_forever loop has exited. Both attributes are created only in the
base-class constructor; Server.init never calls it (only start does, via
WebsocketServer.init), so calling shutdown on a never-started server
raises AttributeError on the missing event attribute. On a started
server it returns after the receive loop has terminated. -/
def Server_shutdown (s : ServerState) : Except PyError ServerState :=
  if s.baseInited then
    Except.ok { s with loopRunning := false }
  else
    Except.error (PyError.attributeError "_BaseServer__is_shut_down")

/-- Server.stop (source lines 65 to 68): self.shutdown(), then clear the
thread reference and the tracked client. An exception from shutdown
escapes before the two assignments run. There is no thread join and no
server_close call in the source. -/
def Server_stop (s : ServerState) : Except PyError ServerState :=
  match Server_shutdown s with
  | Except.error e => Except.error e
  | Except.ok s1 =>
    Except.ok { s1 with _thread := none, _connected_client := none }

/-- Server.new_client (source lines 70 to 72): triggers the
Browser.Connected event, then overwrites _connected_client with the new
client, whatever was tracked before. -/
def Server_new_client (s : ServerState) (c : Client) :
    ServerState × List Notification :=
  ({ s with _connected_client := some c },
   [⟨"Browser.Connected", Payload.noPayload⟩])

/-- Server.client_left (source lines 74 to 76): triggers the
Browser.Disconnected event, then sets _connected_client to None. The
departing client argument is ignored: the field is cleared even when the
client that left is not the one currently tracked. -/
def Server_client_left (s : ServerState) (_client : Client) :
    ServerState × List Notification :=
  ({ s with _connected_client := none },
   [⟨"Browser.Disconnected", Payload.noPayload⟩])

/-- Server.send (source lines 86 to 88): when _connected_client is not
None, one send_message call on its handler; otherwise nothing happens
and nothing is raised. Returns the transport writes performed. -/
def Server_send (s : ServerState) (message : String) : List Write :=
  match s._connected_client with
  | none => []
  | some c => [⟨c, message⟩]

/-- A connection-lifecycle callback as invoked by the websocket handler
library on the receive loop. -/
inductive ConnEvent : Type where
  | connect : Client → ConnEvent
  | disconnect : Client → ConnEvent

/-- State reached after one connection callback. -/
def applyConnEvent (s : ServerState) (e : ConnEvent) : ServerState :=
  match e with
  | ConnEvent.connect c => (Server_new_client s c).1
  | ConnEvent.disconnect c => (Server_client_left s c).1

/-- State reached after a sequence of connection callbacks. -/
def runConnEvents (s : ServerState) : List ConnEvent → ServerState
  | [] => s
  | e :: rest => runConnEvents (applyConnEvent s e) rest

/-- How many sessions the server currently tracks. -/
def sessionCount (s : ServerState) : Nat :=
  match s._connected_client with
  | none => 0
  | some _ => 1

/-- Escaping of one character inside a JSON string as json.dumps does it
for the characters the messages of this plugin carry (backslash and
double quote; no message built here contains control characters or
non-ASCII text). -/
def escapeChar (c : Char) : String :=
  if c = '\\' then "\\\\"
  else if c = '"' then "\\\""
  else String.singleton c

/-- A JSON string literal as json.dumps renders it. -/
def jstr (s : String) : String :=
  "\"" ++ String.join (s.toList.map escapeChar) ++ "\""

mutual

/-- json.dumps with its default separators (comma-space between members,
colon-space after a key). Objects keep the order in which the source
dict literal writes its keys. -/
def dumps : Json → String
  | Json.null => "null"
  | Json.bool true => "true"
  | Json.bool false => "false"
  | Json.num n => toString n
  | Json.str s => jstr s
  | Json.obj kvs => "\x7b" ++ dumpsMembers kvs ++ "\x7d"

/-- The members of a JSON object, comma-space separated. -/
def dumpsMembers : List (String × Json) → String
  | [] => ""
  | [(k, v)] => jstr k ++ ": " ++ dumps v
  | (k, v) :: rest => jstr k ++ ": " ++ dumps v ++ ", " ++ dumpsMembers rest

end

/-- The dict built by NewTab.call (source line 166) after value1 was
passed through eg.ParseString. -/
def NewTab_message (url : String) (active pinned : Bool)
    (target index : Int) : Json :=
  Json.obj [("command", Json.str "NewTab"),
    ("parameters", Json.obj
      [("url", Json.str url), ("active", Json.bool active),
       ("pinned", Json.bool pinned), ("target", Json.num target),
       ("index", Json.num index)])]

/-- NewTab.call (source lines 164 to 168): value1 = eg.ParseString(value1),
build the message dict, json.dumps it, hand it to self.plugin.server.send.
eg.ParseString is a host-framework primitive (string expansion of
templated text) passed in as the ps argument. Returns the transport
writes the send performs. -/
def NewTab_call (ps : String → String) (s : ServerState) (value1 : String)
    (value2 value3 : Bool) (value5 value6 : Int) : List Write :=
  Server_send s (dumps (NewTab_message (ps value1) value2 value3 value5 value6))

/-- The dict built by UpdateTab.call (source line 227); its command tag
is NewUrl. -/
def UpdateTab_message (url : String) (active pinned muted : Bool)
    (target index : Int) : Json :=
  Json.obj [("command", Json.str "NewUrl"),
    ("parameters", Json.obj
      [("url", Json.str url), ("active", Json.bool active),
       ("pinned", Json.bool pinned), ("muted", Json.bool muted),
       ("target", Json.num target), ("index", Json.num index)])]

/-- The dict built by ReloadTab.call (source line 316). -/
def ReloadTab_message (target index : Int) (bypasscache : Bool) : Json :=
  Json.obj [("command", Json.str "ReloadTab"),
    ("parameters", Json.obj
      [("target", Json.num target), ("index", Json.num index),
       ("bypasscache", Json.bool bypasscache)])]

/-- The dict built by MoveTab.call (source line 361). -/
def MoveTab_message (target startindex endindex : Int) : Json :=
  Json.obj [("command", Json.str "MoveTab"),
    ("parameters", Json.obj
      [("target", Json.num target), ("startindex", Json.num startindex),
       ("endindex", Json.num endindex)])]

/-- The dict built by RemoveTab.call (source line 412). -/
def RemoveTab_message (target index : Int) : Json :=
  Json.obj [("command", Json.str "RemoveTab"),
    ("parameters", Json.obj
      [("target", Json.num target), ("index", Json.num index)])]

/-- The dict built by QueryActiveTab.call (source line 454): only the
command key, no parameters key at all. -/
def QueryActiveTab_message : Json :=
  Json.obj [("command", Json.str "QueryActiveTab")]

/-- The dict built by QueryTabByIndex.call (source line 502): the index
sits in a top-level data field, not under parameters. -/
def QueryTabByIndex_message (message : Int) : Json :=
  Json.obj [("command", Json.str "QueryTabByIndex"),
    ("data", Json.num message)]

/-- The top-level keys of a JSON object, in order. -/
def topKeys : Json → List String
  | Json.obj kvs => kvs.map Prod.fst
  | _ => []

/-- A decoded inbound Event with the given command tag and data fields,
as json.loads returns it for a frame of the documented inbound shape. -/
def inboundEvent (tag : String) (d : List (String × Json)) :
    Except PyError Json :=
  Except.ok (Json.obj [("command", Json.str tag), ("data", Json.obj d)])

/-- C4: sending any message while no peer session is attached
(_connected_client is None) completes without raising and performs no
transport write, whatever the other server fields hold: the message is
dropped, not queued, not retried. -/
theorem C4_send_without_client (b l : Bool) (t : Option Unit) (m : String) :
    Server_send ⟨b, l, t, none⟩ m = [] := rfl

/-- C5: at most one session is ever tracked: after any sequence of
connect and disconnect callbacks from any starting state the server
reports zero or one current peer, and a second connect before any
disconnect leaves exactly the most recent client current. -/
theorem C5_at_most_one_session (s : ServerState) (es : List ConnEvent)
    (c1 c2 : Client) :
    sessionCount (runConnEvents s es) ≤ 1
    ∧ (runConnEvents s [ConnEvent.connect c1, ConnEvent.connect c2]
        )._connected_client = some c2
    ∧ sessionCount (runConnEvents s
        [ConnEvent.connect c1, ConnEvent.connect c2]) = 1 := by
  refine ⟨?_, rfl, rfl⟩
  cases h : (runConnEvents s es)._connected_client <;> simp [sessionCount, h]

/-- C6 counterexample: calling stop() on a server that was never started
is not a no-op; self.shutdown() is the inherited BaseServer.shutdown and
it raises AttributeError, because the event attribute it waits on is
created only by the base constructor, which runs only inside start. -/
theorem C6_counterexample :
    Server_stop Server_init
      = Except.error (PyError.attributeError "_BaseServer__is_shut_down") := rfl

/-- C6 amended: stop() on a started server succeeds: it signals the
receive loop to terminate (shutdown returns after serve_forever has
exited), then clears the thread reference and the session registry, so
no peer is current afterwards. -/
theorem C6_stop_after_start (s : ServerState) :
    Server_stop (Server_start s) = Except.ok ⟨true, false, none, none⟩ := by
  cases s; rfl

/-- C8: the outbound wire-shape asymmetries: QueryTabByIndex puts the
index in a top-level data field and has no parameters key;
QueryActiveTab has no parameters key at all, only command; every other
action message nests its fields under a parameters key. -/
theorem C8_wire_shapes (idx target index startindex endindex : Int)
    (url : String) (active pinned muted bypasscache : Bool) :
    jsonGet (QueryTabByIndex_message idx) "data" = Except.ok (Json.num idx)
    ∧ topKeys (QueryTabByIndex_message idx) = ["command", "data"]
    ∧ QueryActiveTab_message = Json.obj [("command", Json.str "QueryActiveTab")]
    ∧ topKeys QueryActiveTab_message = ["command"]
    ∧ topKeys (NewTab_message url active pinned target index)
        = ["command", "parameters"]
    ∧ topKeys (UpdateTab_message url active pinned muted target index)
        = ["command", "parameters"]
    ∧ topKeys (ReloadTab_message target index bypasscache)
        = ["command", "parameters"]
    ∧ topKeys (MoveTab_message target startindex endindex)
        = ["command", "parameters"]
    ∧ topKeys (RemoveTab_message target index)
        = ["command", "parameters"] :=
  ⟨rfl, rfl, rfl, rfl, rfl, rfl, rfl, rfl, rfl⟩

/-- C9: client_left clears the tracked session unconditionally,
whichever client departs; in particular after a second client connects
(displacing the first) and the first then disconnects, no peer is
current and a subsequent send is silently dropped. -/
theorem C9_disconnect_clears_unconditionally (s : ServerState)
    (c c1 c2 : Client) (m : String) :
    (Server_client_left s c).1._connected_client = none
    ∧ (runConnEvents Server_init
        [ConnEvent.connect c1, ConnEvent.connect c2,
         ConnEvent.disconnect c1])._connected_client = none
    ∧ Server_send (runConnEvents Server_init
        [ConnEvent.connect c1, ConnEvent.connect c2,
         ConnEvent.disconnect c1]) m = [] :=
  ⟨rfl, rfl, rfl⟩

/-- C1: for a decoded inbound Event carrying the nested fields its tag
reads, the dispatcher raises exactly the notifications of the table, in
order: QueryActiveTab raises QueryActiveTabInfo with the raw message
then QueryActiveTab with data url; QueryTabByIndex raises
QueryTabByIndex with data index then QueryTabByIndexInfo with the raw
message; ActiveTab raises ActiveTabUrl with data url then ActiveTabInfo
with the raw message; TabUpdated raises ActiveTabUrl with data url then
ActiveTabUrInfo with the raw message; CreateNewTab, MoveTab and
RemoveTab raise the like-named notification with the raw message; and
any other tag raises no notification and lets no error escape to the
receive loop. -/
theorem C1_dispatch_table (raw : String) (d : List (String × Json)) :
    (∀ u, lookupKey d "url" = some u →
      command_received raw (inboundEvent "QueryActiveTab" d)
        = ([⟨"QueryActiveTabInfo", Payload.pyStr raw⟩,
            ⟨"QueryActiveTab", Payload.pyVal u⟩], none))
    ∧ (∀ i, lookupKey d "index" = some i →
      command_received raw (inboundEvent "QueryTabByIndex" d)
        = ([⟨"QueryTabByIndex", Payload.pyVal i⟩,
            ⟨"QueryTabByIndexInfo", Payload.pyStr raw⟩], none))
    ∧ (∀ u, lookupKey d "url" = some u →
      command_received raw (inboundEvent "ActiveTab" d)
        = ([⟨"ActiveTabUrl", Payload.pyVal u⟩,
            ⟨"ActiveTabInfo", Payload.pyStr raw⟩], none))
    ∧ (∀ u, lookupKey d "url" = some u →
      command_received raw (inboundEvent "TabUpdated" d)
        = ([⟨"ActiveTabUrl", Payload.pyVal u⟩,
            ⟨"ActiveTabUrInfo", Payload.pyStr raw⟩], none))
    ∧ command_received raw (inboundEvent "CreateNewTab" d)
        = ([⟨"CreateNewTab", Payload.pyStr raw⟩], none)
    ∧ command_received raw (inboundEvent "MoveTab" d)
        = ([⟨"MoveTab", Payload.pyStr raw⟩], none)
    ∧ command_received raw (inboundEvent "RemoveTab" d)
        = ([⟨"RemoveTab", Payload.pyStr raw⟩], none)
    ∧ (∀ tag, tag ∉ ["QueryActiveTab", "QueryTabByIndex", "ActiveTab",
        "TabUpdated", "CreateNewTab", "MoveTab", "RemoveTab"] →
      command_received raw (inboundEvent tag d) = ([], none)) := by
  refine ⟨?_, ?_, ?_, ?_, rfl, rfl, rfl, ?_⟩
  · intro u hu
    simp [command_received, inboundEvent, jsonGet, dataGet, lookupKey, hu]
  · intro i hi
    simp [command_received, inboundEvent, jsonGet, dataGet, lookupKey, hi]
  · intro u hu
    simp [command_received, inboundEvent, jsonGet, dataGet, lookupKey, hu]
  · intro u hu
    simp [command_received, inboundEvent, jsonGet, dataGet, lookupKey, hu]
  · intro tag h
    simp only [List.mem_cons, List.not_mem_nil, or_false, not_or] at h
    obtain ⟨h1, h2, h3, h4, h5, h6, h7⟩ := h
    simp [command_received, inboundEvent, jsonGet, lookupKey,
      h1, h2, h3, h4, h5, h6, h7]

/-- C1 witness: the dispatch table evaluated on the two spec examples
verbatim: the QueryActiveTab Event whose data carries only url, and the
Unknown Event with empty data. -/
theorem C1_dispatch_table_witness :
    command_received "m" (inboundEvent "QueryActiveTab"
        [("url", Json.str "http://x")])
      = ([⟨"QueryActiveTabInfo", Payload.pyStr "m"⟩,
          ⟨"QueryActiveTab", Payload.pyVal (Json.str "http://x")⟩], none)
    ∧ command_received "m" (inboundEvent "Unknown" []) = ([], none) :=
  ⟨(C1_dispatch_table "m" [("url", Json.str "http://x")]).1
      (Json.str "http://x") rfl,
   (C1_dispatch_table "m" []).2.2.2.2.2.2.2 "Unknown" (by decide)⟩

/-- C2 counterexample: on the inbound ActiveTab Event whose data lacks
url, no MissingField condition is recorded and the Event is not merely
dropped: the dict access raises KeyError for url, which escapes
command_received uncaught, so the result carries a propagating error
instead of none. -/
theorem C2_counterexample :
    command_received "rawmsg" (inboundEvent "ActiveTab" [])
      = ([], some (PyError.keyError "url"))
    ∧ (command_received "rawmsg" (inboundEvent "ActiveTab" [])).2 ≠ none :=
  ⟨rfl, by decide⟩

/-- C2 amended: for an inbound Event whose tag reads a nested data field
that is absent, the dispatcher raises an uncaught KeyError that escapes
command_received; no MissingField condition is recorded anywhere. For
ActiveTab, TabUpdated and QueryTabByIndex the error occurs before any
notification is raised; for QueryActiveTab the raw-message notification
has already been raised when the error occurs. -/
theorem C2_missing_field_raises (raw : String) (d : List (String × Json))
    (hu : lookupKey d "url" = none) (hi : lookupKey d "index" = none) :
    command_received raw (inboundEvent "ActiveTab" d)
      = ([], some (PyError.keyError "url"))
    ∧ command_received raw (inboundEvent "TabUpdated" d)
      = ([], some (PyError.keyError "url"))
    ∧ command_received raw (inboundEvent "QueryTabByIndex" d)
      = ([], some (PyError.keyError "index"))
    ∧ command_received raw (inboundEvent "QueryActiveTab" d)
      = ([⟨"QueryActiveTabInfo", Payload.pyStr raw⟩],
         some (PyError.keyError "url")) := by
  refine ⟨?_, ?_, ?_, ?_⟩ <;>
    simp [command_received, inboundEvent, jsonGet, dataGet, lookupKey, hu, hi]

/-- C2 amended witness: the amended behavior evaluated on the concrete
ActiveTab Event with empty data. -/
theorem C2_missing_field_raises_witness :
    command_received "m" (inboundEvent "ActiveTab" [])
      = ([], some (PyError.keyError "url")) :=
  (C2_missing_field_raises "m" [] rfl rfl).1

/-- C3 counterexample: an undecodable frame (json.loads raises
ValueError) and a decoded object lacking a command field are not logged
and dropped as MalformedMessage: in both cases the exception escapes
command_received uncaught, so the failure propagates out of the receive
path instead of being non-fatal. -/
theorem C3_counterexample :
    (command_received "notjson"
        (Except.error (PyError.valueError "no JSON object could be decoded"))).2
      = some (PyError.valueError "no JSON object could be decoded")
    ∧ command_received "m" (Except.ok (Json.obj [("data", Json.obj [])]))
      = ([], some (PyError.keyError "command")) :=
  ⟨rfl, rfl⟩

/-- C3 amended: when json.loads fails, its exception escapes
command_received before any branch runs, and when the decoded object
lacks a command field the first elif condition raises KeyError which
also escapes; in both cases no notification is raised, and there is no
MalformedMessage classification, logging-and-dropping or containment in
the plugin code. -/
theorem C3_undecodable_raises (raw : String) (e : PyError)
    (d : List (String × Json)) (hc : lookupKey d "command" = none) :
    command_received raw (Except.error e) = ([], some e)
    ∧ command_received raw (Except.ok (Json.obj d))
      = ([], some (PyError.keyError "command")) := by
  refine ⟨rfl, ?_⟩
  simp [command_received, jsonGet, hc]

/-- C3 amended witness: the amended behavior evaluated on a concrete
undecodable frame and on a concrete command-less object. -/
theorem C3_undecodable_raises_witness :
    command_received "x" (Except.error (PyError.valueError "bad"))
      = ([], some (PyError.valueError "bad"))
    ∧ command_received "x" (Except.ok (Json.obj []))
      = ([], some (PyError.keyError "command")) :=
  C3_undecodable_raises "x" (PyError.valueError "bad") [] rfl

/-- C10: notification emission is not atomic with respect to field
errors: on a QueryActiveTab Event whose data lacks url, the
QueryActiveTabInfo notification carrying the raw message is raised
before the failing url access, so a proper initial segment of the tag
notification list has been emitted when the KeyError escapes. -/
theorem C10_info_raised_before_missing_url (raw : String)
    (d : List (String × Json)) (hu : lookupKey d "url" = none) :
    command_received raw (inboundEvent "QueryActiveTab" d)
      = ([⟨"QueryActiveTabInfo", Payload.pyStr raw⟩],
         some (PyError.keyError "url")) := by
  simp [command_received, inboundEvent, jsonGet, dataGet, lookupKey, hu]

/-- C10 witness: the non-atomic emission evaluated on a concrete
QueryActiveTab Event whose data has no url field. -/
theorem C10_info_raised_before_missing_url_witness :
    command_received "m" (inboundEvent "QueryActiveTab" [("id", Json.num 7)])
      = ([⟨"QueryActiveTabInfo", Payload.pyStr "m"⟩],
         some (PyError.keyError "url")) :=
  C10_info_raised_before_missing_url "m" [("id", Json.num 7)] rfl

/-- C7: the NewTab action invoked with url http://example.com,
active true, pinned false, target 1, index 3 builds exactly the wire
message with command NewTab and parameters url, active, pinned, target,
index as given (after string expansion of the URL parameter by the host
primitive ps), serializes it with json.dumps, and hands it to
Server.send, which writes it to the attached client. -/
theorem C7_newtab_wire (ps : String → String) (c : Client)
    (hps : ps "http://example.com" = "http://example.com") :
    NewTab_message (ps "http://example.com") true false 1 3
      = Json.obj [("command", Json.str "NewTab"),
          ("parameters", Json.obj
            [("url", Json.str "http://example.com"),
             ("active", Json.bool true), ("pinned", Json.bool false),
             ("target", Json.num 1), ("index", Json.num 3)])]
    ∧ dumps (NewTab_message (ps "http://example.com") true false 1 3)
      = "\x7b\"command\": \"NewTab\", \"parameters\": \x7b\"url\": \"http://example.com\", \"active\": true, \"pinned\": false, \"target\": 1, \"index\": 3\x7d\x7d"
    ∧ NewTab_call ps ⟨true, true, some (), some c⟩
        "http://example.com" true false 1 3
      = [⟨c, dumps (NewTab_message "http://example.com" true false 1 3)⟩] := by
  rw [NewTab_call, Server_send, hps]
  exact ⟨rfl, by decide, rfl⟩

/-- C7 witness: the wire message and the transport write evaluated with
the identity expansion on the template-free example URL. -/
theorem C7_newtab_wire_witness :
    NewTab_call id ⟨true, true, some (), some ⟨0⟩⟩
        "http://example.com" true false 1 3
      = [⟨⟨0⟩, dumps (NewTab_message "http://example.com" true false 1 3)⟩] :=
  (C7_newtab_wire id ⟨0⟩ rfl).2.2
